import Mathlib

/-!
The exported object of tailwind.config.js

A shallow embedding of the object literal exported by `tailwind.config.js`,
together with the structural properties of that object.

The file exports one JavaScript object literal.  Its values are strings,
booleans, arrays and nested objects, so it is embedded as a value of a small
JSON-like datatype.  An object is an ordered list of key/value pairs; the
numeric literal keys `500`, `600`, `700` are property names and therefore
strings (`"500"`, ...).  They are written in ascending order in the source, so
source order and JavaScript property order coincide.
-/

namespace TailwindConfig

/-- Values occurring in the exported object literal. -/
inductive JsVal where
  | str (s : String)
  | bool (b : Bool)
  | arr (items : List JsVal)
  | obj (fields : List (String × JsVal))

namespace JsVal

/-- Own property names of a value, in property order (`Object.keys`). -/
def keys : JsVal → List String
  | obj fields => fields.map Prod.fst
  | _ => []

/-- Own key/value pairs of a value (`Object.entries`). -/
def entries : JsVal → List (String × JsVal)
  | obj fields => fields
  | _ => []

/-- Property access `v[k]`; `none` stands for `undefined`. -/
def get? (v : JsVal) (k : String) : Option JsVal :=
  match v with
  | obj fields => fields.lookup k
  | _ => none

/-- Property access along a path of property names. -/
def getPath? (v : JsVal) : List String → Option JsVal
  | [] => some v
  | k :: ks =>
    match v.get? k with
    | some w => w.getPath? ks
    | none => none

/-- The string carried by a string value. -/
def asStr? : JsVal → Option String
  | str s => some s
  | _ => none

/-- The elements of an array value. -/
def asArr? : JsVal → Option (List JsVal)
  | arr items => some items
  | _ => none

end JsVal

open JsVal

/-- The object assigned to `module.exports` in `tailwind.config.js`. -/
def config : JsVal :=
  obj [
    ("content", arr [
      str "./snippets/**/*.liquid",
      str "./sections/**/*.liquid",
      str "./templates/**/*.liquid",
      str "./assets/**/*.js"
    ]),
    ("prefix", str "tw-"),
    ("theme", obj [
      ("extend", obj [
        ("colors", obj [
          ("purple", obj [
            ("500", str "#9333ea"),
            ("600", str "#7e22ce"),
            ("700", str "#6b21a8")
          ])
        ])
      ])
    ]),
    ("plugins", arr []),
    ("corePlugins", obj [
      ("preflight", bool false)
    ])
  ]

/-- The value of `module.exports.theme.extend.colors`; an absent property
reads as the empty object. -/
def colors : JsVal :=
  (config.getPath? ["theme", "extend", "colors"]).getD (obj [])

/-- The strings of `module.exports.content`, in order; a non-string element or
a non-array field yields `none`. -/
def contentGlobs : Option (List String) :=
  match config.get? "content" with
  | some (arr items) => items.mapM asStr?
  | _ => none

/-- The string of `module.exports.prefix`. -/
def classPrefixStr : Option String :=
  match config.get? "prefix" with
  | some v => v.asStr?
  | none => none

/-- The strings of `module.exports.content` as a plain list (empty when the
field is not an array of strings). -/
def contentList : List String :=
  contentGlobs.getD []

/-! ## Predicates used to state the properties -/

/-- ASCII letter `a`-`z` or `A`-`Z`. -/
def isAsciiLetter (c : Char) : Bool :=
  (97 ≤ c.toNat && c.toNat ≤ 122) || (65 ≤ c.toNat && c.toNat ≤ 90)

/-- ASCII digit `0`-`9`. -/
def isAsciiDigit (c : Char) : Bool :=
  48 ≤ c.toNat && c.toNat ≤ 57

/-- Characters allowed in a class-name fragment: ASCII letter, digit, hyphen
or underscore. -/
def isClassChar (c : Char) : Bool :=
  isAsciiLetter c || isAsciiDigit c || c.toNat == 45 || c.toNat == 95

/-- Numeric value of a hexadecimal digit. -/
def hexVal? (c : Char) : Option Nat :=
  if 48 ≤ c.toNat ∧ c.toNat ≤ 57 then some (c.toNat - 48)
  else if 97 ≤ c.toNat ∧ c.toNat ≤ 102 then some (c.toNat - 87)
  else if 65 ≤ c.toNat ∧ c.toNat ≤ 70 then some (c.toNat - 55)
  else none

/-- A CSS hex colour literal of the six-digit form: `#` followed by exactly
six hexadecimal digits. -/
def isHexColor (s : String) : Bool :=
  match s.toList with
  | [] => false
  | c :: ds => c.toNat == 35 && ds.length == 6 && ds.all (fun d => (hexVal? d).isSome)

/-- The red, green and blue bytes of a six-digit hex colour literal. -/
def rgb? (s : String) : Option (Nat × Nat × Nat) :=
  match s.toList.map hexVal? with
  | [none, some r1, some r0, some g1, some g0, some b1, some b0] =>
    if s.toList.head? = some (Char.ofNat 35) then
      some (16 * r1 + r0, 16 * g1 + g0, 16 * b1 + b0)
    else none
  | _ => none

/-- Every channel of `d` is strictly below the same channel of `c`. -/
def StrictlyDarker (c d : Nat × Nat × Nat) : Prop :=
  d.1 < c.1 ∧ d.2.1 < c.2.1 ∧ d.2.2 < c.2.2

/-- The colour string stored under shade `k` of the purple palette. -/
def purpleShade (k : String) : Option String :=
  (colors.getPath? ["purple", k]).bind asStr?

/-- A class-name fragment: non-empty, starting with an ASCII letter, and made
only of ASCII letters, digits, hyphens and underscores. -/
def isClassFragment (s : String) : Bool :=
  match s.toList with
  | [] => false
  | c :: cs => isAsciiLetter c && (c :: cs).all isClassChar

/-- Characters of a plain directory name: ASCII letters, digits, hyphen or
underscore (in particular no `/` and no glob metacharacter). -/
def isDirName (s : String) : Bool :=
  !s.toList.isEmpty && s.toList.all isClassChar

/-- Reads a pattern of the shape `./<dir>/**/*.<ext>` and returns the pair
`(dir, ext)`; `dir` is everything between `./` and the next `/`. -/
def parseGlob? (s : String) : Option (String × String) :=
  match s.toList with
  | d :: sl :: rest =>
    if d.toNat == 46 && sl.toNat == 47 then
      let dir := rest.takeWhile (fun c => c.toNat != 47)
      let tail := rest.dropWhile (fun c => c.toNat != 47)
      if tail.take 6 = "/**/*.".toList then
        some (String.mk dir, String.mk (tail.drop 6))
      else none
    else none
  | _ => none

/-- The directory named by a content pattern. -/
def globDir? (s : String) : Option String :=
  (parseGlob? s).map Prod.fst

/-- The value of `module.exports.theme`; an absent property reads as the empty
object. -/
def theme : JsVal :=
  (config.get? "theme").getD (obj [])

/-- Modelled from the spec: the key-wise merge of two property lists that the
build tool's extension mechanism performs (the tool's merge code is not part of
this repository).  A key of `base` that `ext` also defines gets the combined
value `f old new`, other keys of `base` are kept, and keys only `ext` defines
are appended. -/
def mergeFields (f : JsVal → JsVal → JsVal) (base ext : List (String × JsVal)) :
    List (String × JsVal) :=
  base.map (fun kv =>
      match ext.lookup kv.1 with
      | some e => (kv.1, f kv.2 e)
      | none => kv)
    ++ ext.filter (fun kv => (base.lookup kv.1).isNone)

/-- Modelled from the spec: the shade-level step of the build tool's merge of
an extension over a default palette (the tool's merge code is not part of this
repository).  An extended shade takes the extension's value, all other shades
of the default palette are kept. -/
def extendShades (base ext : JsVal) : JsVal :=
  match base, ext with
  | obj b, obj e => obj (mergeFields (fun _ new => new) b e)
  | _, e => e

/-- Modelled from the spec: the palette-level step of the build tool's merge
of `theme.extend.colors` over a default colour-token set (the tool's merge
code is not part of this repository).  A palette present on both sides is
extended shade by shade, all other default palettes are kept. -/
def extendColors (defaults ext : JsVal) : JsVal :=
  match defaults, ext with
  | obj b, obj e => obj (mergeFields extendShades b e)
  | _, e => e

/-- Modelled from the spec: the colour-token set the build tool resolves from
a theme object and its default tokens (the tool's resolution code is not part
of this repository).  A top-level `theme.colors` replaces the defaults;
`theme.extend.colors` is merged over whichever base results. -/
def resolveColors (defaults th : JsVal) : JsVal :=
  let base := (th.get? "colors").getD defaults
  match th.getPath? ["extend", "colors"] with
  | some ext => extendColors base ext
  | none => base

/-- A default colour-token set used to exercise the merge: a gray palette and
a purple palette with the shades 400 and 500. -/
def sampleDefaults : JsVal :=
  obj [
    ("gray", obj [("500", str "#6b7280")]),
    ("purple", obj [("400", str "#c084fc"), ("500", str "#a855f7")])
  ]

/-! ## Lookup in a merged property list -/

theorem lookup_map_merge (f : JsVal → JsVal → JsVal) (ext base : List (String × JsVal))
    (k : String) :
    (base.map (fun kv =>
        match ext.lookup kv.1 with
        | some e => (kv.1, f kv.2 e)
        | none => kv)).lookup k
      = (base.lookup k).map (fun v =>
          match ext.lookup k with
          | some e => f v e
          | none => v) := by
  induction base with
  | nil => rfl
  | cons kv rest ih =>
    obtain ⟨k0, v0⟩ := kv
    by_cases hk : k = k0
    · subst hk
      cases he : ext.lookup k <;> simp [List.lookup_cons, he]
    · have hb : (k == k0) = false := by simpa using hk
      cases he : ext.lookup k0 <;> simp [List.lookup_cons, he, hb, ih]

theorem lookup_filter_fresh (base ext : List (String × JsVal)) (k : String)
    (hk : base.lookup k = none) :
    (ext.filter (fun kv => (base.lookup kv.1).isNone)).lookup k = ext.lookup k := by
  induction ext with
  | nil => rfl
  | cons kv rest ih =>
    obtain ⟨k0, v0⟩ := kv
    by_cases h0 : k = k0
    · subst h0
      simp [List.filter_cons, hk, List.lookup_cons]
    · have hb : (k == k0) = false := by simpa using h0
      by_cases hf : (base.lookup k0).isNone = true
      · simp [List.filter_cons, hf, List.lookup_cons, hb, ih]
      · simp [List.filter_cons, hf, List.lookup_cons, hb, ih]

theorem lookup_mergeFields (f : JsVal → JsVal → JsVal) (base ext : List (String × JsVal))
    (k : String) :
    (mergeFields f base ext).lookup k
      = match base.lookup k with
        | some v =>
          (match ext.lookup k with
          | some e => some (f v e)
          | none => some v)
        | none => ext.lookup k := by
  unfold mergeFields
  rw [List.lookup_append, lookup_map_merge]
  cases hb : base.lookup k with
  | none => simp [lookup_filter_fresh base ext k hb]
  | some v => cases he : ext.lookup k <;> simp

/-- With the theme of this configuration, resolution is the merge of
`theme.extend.colors` over the defaults. -/
theorem resolveColors_theme (defaults : JsVal) :
    resolveColors defaults theme = extendColors defaults colors := by
  rfl

theorem lookup_colors_other (pal : String) (h : pal ≠ "purple") :
    colors.entries.lookup pal = none := by
  have hc : colors.entries = [("purple", obj [("500", str "#9333ea"),
      ("600", str "#7e22ce"), ("700", str "#6b21a8")])] := rfl
  have hb : (pal == "purple") = false := by simpa using h
  rw [hc, List.lookup_cons, hb]
  rfl

theorem lookup_purple_other (shade : String) (h5 : shade ≠ "500") (h6 : shade ≠ "600")
    (h7 : shade ≠ "700") :
    [("500", str "#9333ea"), ("600", str "#7e22ce"),
      ("700", str "#6b21a8")].lookup shade = none := by
  have b5 : (shade == "500") = false := by simpa using h5
  have b6 : (shade == "600") = false := by simpa using h6
  have b7 : (shade == "700") = false := by simpa using h7
  simp [List.lookup_cons, b5, b6, b7]

/-! ## The exported object -/

/-- C1: `theme.extend.colors` contains the palette `purple`, whose shade
mapping has exactly the keys 500, 600, 700 with the values `#9333ea`,
`#7e22ce`, `#6b21a8`. -/
theorem purple_palette_exact :
    config.getPath? ["theme", "extend", "colors"] = some colors ∧
    "purple" ∈ colors.keys ∧
    (colors.get? "purple").map keys = some ["500", "600", "700"] ∧
    colors.getPath? ["purple", "500"] = some (str "#9333ea") ∧
    colors.getPath? ["purple", "600"] = some (str "#7e22ce") ∧
    colors.getPath? ["purple", "700"] = some (str "#6b21a8") := by
  refine ⟨rfl, by decide, by decide, rfl, rfl, rfl⟩

/-- C2 fails as stated: the exported object does not have four top-level
keys. -/
theorem config_keys_not_four : ¬ (config.keys.length = 4) := by
  decide

/-- C2 as amended: the exported object has exactly five top-level keys,
`content`, `prefix`, `theme`, `plugins` and `corePlugins`. -/
theorem config_keys_five :
    config.keys = ["content", "prefix", "theme", "plugins", "corePlugins"] ∧
    config.keys.length = 5 := by
  refine ⟨by decide, by decide⟩

/-- C3: `corePlugins.preflight` is the boolean `false`, and `preflight` is the
only key of `corePlugins`. -/
theorem preflight_disabled :
    config.getPath? ["corePlugins", "preflight"] = some (bool false) ∧
    (config.get? "corePlugins").map keys = some ["preflight"] := by
  refine ⟨rfl, by decide⟩

/-- C4: `content` is the sequence of exactly four strings
`./snippets/**/*.liquid`, `./sections/**/*.liquid`, `./templates/**/*.liquid`,
`./assets/**/*.js` in this order; one of them is under `./templates/`, one is
under `./sections/`, and one selects `.js` files. -/
theorem content_globs_exact :
    config.get? "content" = some (arr [str "./snippets/**/*.liquid",
      str "./sections/**/*.liquid", str "./templates/**/*.liquid",
      str "./assets/**/*.js"]) ∧
    contentGlobs = some ["./snippets/**/*.liquid", "./sections/**/*.liquid",
      "./templates/**/*.liquid", "./assets/**/*.js"] ∧
    contentList.length = 4 ∧
    (∃ p ∈ contentList, "./templates/".toList.isPrefixOf p.toList = true) ∧
    (∃ p ∈ contentList, "./sections/".toList.isPrefixOf p.toList = true) ∧
    (∃ p ∈ contentList, ".js".toList.isSuffixOf p.toList = true) := by
  refine ⟨rfl, rfl, by decide, ?_, ?_, ?_⟩
  · exact ⟨"./templates/**/*.liquid", by decide, by decide⟩
  · exact ⟨"./sections/**/*.liquid", by decide, by decide⟩
  · exact ⟨"./assets/**/*.js", by decide, by decide⟩

/-- C5: `plugins` is the empty sequence. -/
theorem plugins_empty : config.get? "plugins" = some (arr []) := by
  rfl

/-- C6: `prefix` is the string `tw-`, of three characters, and it is a
class-name fragment: non-empty, starting with an ASCII letter, every character
an ASCII letter, digit, hyphen or underscore. -/
theorem class_prefix_fragment :
    config.get? "prefix" = some (str "tw-") ∧
    classPrefixStr = some "tw-" ∧
    classPrefixStr.map String.length = some 3 ∧
    classPrefixStr.map isClassFragment = some true := by
  refine ⟨rfl, rfl, by decide, by decide⟩

/-- C7: every value of `theme.extend.colors`, for every palette and every
shade key, is a string of the form `#` followed by exactly six hexadecimal
digits. -/
theorem color_values_hex :
    ∀ pe ∈ colors.entries, ∃ fs, pe.2 = obj fs ∧
      ∀ se ∈ fs, ∃ s, se.2 = str s ∧ isHexColor s = true := by
  intro pe hpe
  have hc : colors.entries = [("purple", obj [("500", str "#9333ea"),
      ("600", str "#7e22ce"), ("700", str "#6b21a8")])] := rfl
  rw [hc, List.mem_singleton] at hpe
  subst hpe
  refine ⟨_, rfl, ?_⟩
  intro se hse
  simp only [List.mem_cons, List.mem_singleton, List.not_mem_nil, or_false] at hse
  rcases hse with rfl | rfl | rfl
  · exact ⟨_, rfl, by decide⟩
  · exact ⟨_, rfl, by decide⟩
  · exact ⟨_, rfl, by decide⟩

/-- Witness for C7 at the purple palette and its shade 600. -/
theorem color_values_hex_witness :
    ∃ fs, (obj [("500", str "#9333ea"), ("600", str "#7e22ce"),
        ("700", str "#6b21a8")]) = obj fs ∧
      ∀ se ∈ fs, ∃ s, se.2 = str s ∧ isHexColor s = true :=
  color_values_hex ("purple", obj [("500", str "#9333ea"), ("600", str "#7e22ce"),
    ("700", str "#6b21a8")]) (List.mem_singleton.mpr rfl)

/-- C8: the theme object has `extend` as its only key and no top-level
`colors`; resolving its colours over any default token set keeps every palette
other than purple as it is in the defaults, and keeps every shade of purple
other than 500, 600 and 700 as it is in the defaults. -/
theorem theme_extension_additive :
    config.get? "theme" = some theme ∧
    theme.keys = ["extend"] ∧
    theme.get? "colors" = none ∧
    (∀ (defaults : JsVal) (pal : String), pal ≠ "purple" →
      (resolveColors defaults theme).get? pal = defaults.get? pal) ∧
    (∀ (defaults : JsVal) (shade : String),
      shade ≠ "500" → shade ≠ "600" → shade ≠ "700" →
      (resolveColors defaults theme).getPath? ["purple", shade]
        = defaults.getPath? ["purple", shade]) := by
  have hcol : colors = obj [("purple", obj [("500", str "#9333ea"),
      ("600", str "#7e22ce"), ("700", str "#6b21a8")])] := rfl
  refine ⟨rfl, by decide, rfl, ?_, ?_⟩
  · intro defaults pal hpal
    rw [resolveColors_theme]
    have hb : (pal == "purple") = false := by simpa using hpal
    cases defaults with
    | str s => simp [hcol, extendColors, get?, List.lookup_cons, hb]
    | bool b => simp [hcol, extendColors, get?, List.lookup_cons, hb]
    | arr items => simp [hcol, extendColors, get?, List.lookup_cons, hb]
    | obj fields =>
      have hl := lookup_colors_other pal hpal
      rw [hcol] at hl
      simp only [entries] at hl
      simp only [hcol, extendColors, get?, lookup_mergeFields, hl]
      cases fields.lookup pal <;> rfl
  · intro defaults shade h5 h6 h7
    rw [resolveColors_theme]
    have hs := lookup_purple_other shade h5 h6 h7
    cases defaults with
    | str s => simp [hcol, extendColors, getPath?, get?, hs]
    | bool b => simp [hcol, extendColors, getPath?, get?, hs]
    | arr items => simp [hcol, extendColors, getPath?, get?, hs]
    | obj fields =>
      simp only [hcol, extendColors, getPath?, get?, lookup_mergeFields]
      cases hp : fields.lookup "purple" with
      | none => simp [List.lookup_cons, get?, hs]
      | some pv =>
        cases pv with
        | str s => simp [List.lookup_cons, extendShades, get?, hs]
        | bool b => simp [List.lookup_cons, extendShades, get?, hs]
        | arr items => simp [List.lookup_cons, extendShades, get?, hs]
        | obj shades =>
          simp only [List.lookup_cons, beq_self_eq_true, extendShades, get?,
            lookup_mergeFields, hs]
          cases shades.lookup shade <;> rfl

/-- Witness for C8: over the sample defaults the gray palette and shade 400 of
purple are untouched. -/
theorem theme_extension_additive_witness :
    "gray" ≠ "purple" ∧ "400" ≠ "500" ∧ "400" ≠ "600" ∧ "400" ≠ "700" ∧
    (resolveColors sampleDefaults theme).get? "gray" = sampleDefaults.get? "gray" ∧
    (resolveColors sampleDefaults theme).getPath? ["purple", "400"]
      = sampleDefaults.getPath? ["purple", "400"] :=
  ⟨by decide, by decide, by decide, by decide,
    theme_extension_additive.2.2.2.1 sampleDefaults "gray" (by decide),
    theme_extension_additive.2.2.2.2 sampleDefaults "400" (by decide) (by decide)
      (by decide)⟩

/-- C9: every content pattern has the shape `./<dir>/**/*.<ext>` with a single
plain directory name and the extension `liquid` or `js`; the four patterns
are pairwise distinct and name four distinct directories. -/
theorem content_glob_shape :
    (∀ p ∈ contentList, ∃ dir ext,
      p = "./" ++ dir ++ "/**/*." ++ ext ∧ parseGlob? p = some (dir, ext) ∧
      isDirName dir = true ∧ (ext = "liquid" ∨ ext = "js")) ∧
    contentList.Nodup ∧
    contentList.map globDir? = [some "snippets", some "sections", some "templates",
      some "assets"] ∧
    (contentList.map globDir?).Nodup := by
  refine ⟨?_, by decide, by decide, by decide⟩
  intro p hp
  have hc : contentList = ["./snippets/**/*.liquid", "./sections/**/*.liquid",
      "./templates/**/*.liquid", "./assets/**/*.js"] := rfl
  rw [hc] at hp
  simp only [List.mem_cons, List.mem_singleton, List.not_mem_nil, or_false] at hp
  rcases hp with rfl | rfl | rfl | rfl
  · exact ⟨"snippets", "liquid", by decide, by decide, by decide, Or.inl rfl⟩
  · exact ⟨"sections", "liquid", by decide, by decide, by decide, Or.inl rfl⟩
  · exact ⟨"templates", "liquid", by decide, by decide, by decide, Or.inl rfl⟩
  · exact ⟨"assets", "js", by decide, by decide, by decide, Or.inr rfl⟩

/-- Witness for C9 at the script pattern. -/
theorem content_glob_shape_witness :
    "./assets/**/*.js" ∈ contentList ∧ ∃ dir ext,
      "./assets/**/*.js" = "./" ++ dir ++ "/**/*." ++ ext ∧
      parseGlob? "./assets/**/*.js" = some (dir, ext) ∧
      isDirName dir = true ∧ (ext = "liquid" ∨ ext = "js") :=
  ⟨by decide, content_glob_shape.1 "./assets/**/*.js" (by decide)⟩

/-- C10: read as red, green and blue bytes, the purple shades 500, 600 and 700
are `#9333ea`, `#7e22ce`, `#6b21a8`, and every channel strictly decreases from
500 to 600 and from 600 to 700. -/
theorem purple_shades_darken :
    purpleShade "500" = some "#9333ea" ∧
    purpleShade "600" = some "#7e22ce" ∧
    purpleShade "700" = some "#6b21a8" ∧
    (purpleShade "500").bind rgb? = some (147, 51, 234) ∧
    (purpleShade "600").bind rgb? = some (126, 34, 206) ∧
    (purpleShade "700").bind rgb? = some (107, 33, 168) ∧
    StrictlyDarker (147, 51, 234) (126, 34, 206) ∧
    StrictlyDarker (126, 34, 206) (107, 33, 168) := by
  refine ⟨rfl, rfl, rfl, by decide, by decide, by decide, ?_, ?_⟩ <;>
    (unfold StrictlyDarker; decide)

end TailwindConfig
